import Mathlib

/-!
Shallow embedding of the KidFit education-marketplace application
(src/models.py, src/app.py): the schedule conflict-detection and
enrollment-eligibility logic together with the request handlers the
specification's claims are about.

Conventions of the embedding:
* Times of day (`datetime.time`) are minutes since midnight, as `Nat`;
  the code only ever compares times, and `datetime.time` comparison is
  order-isomorphic to minutes-since-midnight.
* `datetime.date` birth dates are reduced to their year (`birth_year`),
  the only component either handler reads (`child.birth_date.year`).
* The relational store is a record of lists of rows; SQLAlchemy queries
  become `List.find?` / `List.filter` over those lists.
* Python is dynamically typed: request-form fields are strings while rows
  loaded from the database carry integers, and SQLAlchemy does not coerce
  a value assigned to a model attribute until the INSERT is flushed.  The
  sum type `PyVal` captures a value that may be either; Python `==` / `!=`
  between an `int` and a `str` is plain structural (dis)equality on that
  sum (an int never equals a str).
* Enrollment statuses are the literal strings of the code
  (`"active"`, `"pending"`, `"cancelled"`).
-/

namespace KidFit

/-- A Python runtime value that is either an `int` (a column value loaded
from the database) or a `str` (a raw request-form field).  Python equality
between an `int` and a `str` is `False`, which structural equality on this
sum captures. -/
inductive PyVal where
  | int : Int → PyVal
  | str : String → PyVal
deriving DecidableEq, Repr

/-- The numeric value of a decimal digit character, `none` otherwise. -/
def decDigit? (c : Char) : Option Nat :=
  if 48 ≤ c.toNat ∧ c.toNat ≤ 57 then some (c.toNat - 48) else none

/-- Left-to-right accumulation of decimal digits; fails on a non-digit. -/
def decDigitsAux : List Char → Nat → Option Nat
  | [], acc => some acc
  | c :: rest, acc =>
    match decDigit? c with
    | none => none
    | some d => decDigitsAux rest (acc * 10 + d)

/-- A non-empty all-digit character run as a natural number. -/
def parseDecDigits : List Char → Option Nat
  | [] => none
  | c :: rest => decDigitsAux (c :: rest) 0

/-- The integer denoted by a decimal string with an optional leading minus
sign: the common core of Python `int(...)` and of the text-to-integer
coercion SQLite applies when a text value meets an INTEGER-affinity
column. -/
def pyStrToInt (s : String) : Option Int :=
  match s.toList with
  | [] => none
  | c :: rest =>
    if c = Char.ofNat 45 then (parseDecDigits rest).map (fun n => -(n : Int))
    else (parseDecDigits (c :: rest)).map (fun n => (n : Int))

/-- SQL-side comparison of an integer-affinity column value against a bound
string parameter (SQLite coerces a numeric-looking text to an integer when
comparing it with an INTEGER-affinity column).  Used for `filter_by` clauses
whose right-hand side is a raw form string. -/
def sqlMatchesStr (column : PyVal) (v : String) : Bool :=
  match column with
  | .int n => pyStrToInt v == some n
  | .str s => s == v

/-- `Child` row (models.py, class Child): the fields the claims' handlers
read or store. `birth_year` is `child.birth_date.year`; `none` when the
nullable `birth_date` column is NULL.  `grade` and `notes` are nullable. -/
structure Child where
  id : Nat
  parent_id : Nat
  name : String
  birth_year : Option Int
  grade : Option String
  notes : Option String
deriving DecidableEq, Repr

/-- `Teacher` row (models.py, class Teacher). -/
structure Teacher where
  id : Nat
  center_id : Nat
deriving DecidableEq, Repr

/-- `Program` row (models.py, class Program): the eligibility-relevant
columns. `min_age` / `max_age` are nullable INTEGER columns. -/
structure Program where
  id : Nat
  center_id : Nat
  min_age : Option Int
  max_age : Option Int
  max_students : Nat
deriving DecidableEq, Repr

/-- `Schedule` row (models.py, class Schedule).  `teacher_id` is a `PyVal`
because `add_schedule` / `edit_schedule` assign the raw form string to this
attribute of the in-memory object before the conflict check runs, while
rows loaded from the database carry the integer the column stores. -/
structure Schedule where
  id : Nat
  program_id : Nat
  teacher_id : PyVal
  day_of_week : Int
  start_time : Nat
  end_time : Nat
  max_students : Nat
  is_active : Bool
deriving DecidableEq, Repr

/-- `Enrollment` row (models.py, class Enrollment); `status` is the literal
string stored in the `status` column. -/
structure Enrollment where
  id : Nat
  child_id : Nat
  schedule_id : Nat
  status : String
deriving DecidableEq, Repr

/-- The relational store (the tables the claims touch) plus the
autoincrement counters. -/
structure Store where
  children : List Child
  teachers : List Teacher
  programs : List Program
  schedules : List Schedule
  enrollments : List Enrollment
  nextChildId : Nat
  nextEnrollmentId : Nat
  nextScheduleId : Nat
deriving DecidableEq, Repr

/-- `Schedule.conflicts_with` (models.py lines 232-241), verbatim:
different weekday or different teacher means no conflict, otherwise the
half-open interval overlap test `not (endA <= startB or startA >= endB)`.
The two inequality guards use Python `!=`, which on mixed int/str operands
is always true. -/
def Schedule.conflicts_with (self other : Schedule) : Bool :=
  if self.day_of_week ≠ other.day_of_week then false
  else if self.teacher_id ≠ other.teacher_id then false
  else decide (¬ (self.end_time ≤ other.start_time ∨ self.start_time ≥ other.end_time))

/-- `Enrollment.query.filter_by(schedule_id=sid, status='active').count()`. -/
def activeCount (db : Store) (sid : Nat) : Nat :=
  (db.enrollments.filter (fun e => e.schedule_id == sid && e.status == "active")).length

/-- `Enrollment.query.filter_by(child_id=cid, schedule_id=sid,
status='active').first()` is non-None. -/
def hasActiveEnrollment (db : Store) (cid sid : Nat) : Bool :=
  db.enrollments.any (fun e => e.child_id == cid && e.schedule_id == sid && e.status == "active")

/-- Number of rows of the (child, schedule) pair with status `'active'`:
the quantity the data-model invariant of the spec bounds by one. -/
def pairActiveCount (db : Store) (cid sid : Nat) : Nat :=
  (db.enrollments.filter
    (fun e => e.child_id == cid && e.schedule_id == sid && e.status == "active")).length

/-- The too-young test of `enroll_child` (app.py line 455):
`if schedule.program.min_age and child_age < schedule.program.min_age`.
Python truthiness: a NULL (`none`) or zero `min_age` short-circuits the
check. -/
def tooYoungCheck (minAge : Option Int) (childAge : Int) : Bool :=
  match minAge with
  | none => false
  | some m => m ≠ 0 && childAge < m

/-- The too-old test of `enroll_child` (app.py line 457):
`if schedule.program.max_age and child_age > schedule.program.max_age`. -/
def tooOldCheck (maxAge : Option Int) (childAge : Int) : Bool :=
  match maxAge with
  | none => false
  | some m => m ≠ 0 && childAge > m

/-- Resolve the `schedule.program` relationship (non-nullable foreign key). -/
def findProgram (db : Store) (pid : Nat) : Option Program :=
  db.programs.find? (fun p => p.id == pid)

/-- Outcome of the `enroll_child` handler: one constructor per distinct
response of app.py lines 431-487. -/
inductive EnrollResult where
  | scheduleNotFound
  | childNotFound
  | alreadyEnrolled
  | tooYoung
  | tooOld
  | classFull
  | success
  | enrollmentFailed
deriving DecidableEq, Repr

/-- The age-bound block of `enroll_child` (app.py lines 452-458):
skipped entirely when `birth_date` is NULL, otherwise
`child_age = date.today().year - child.birth_date.year` is tested against
the program's bounds.  `none` means the block falls through without a
rejection.  The program row of a schedule always exists (non-nullable
foreign key); were it absent, the dereference `schedule.program.min_age`
would raise and land in the `except` branch, which the `enrollmentFailed`
constructor models. -/
def ageFailure (db : Store) (schedule : Schedule) (child : Child)
    (todayYear : Int) : Option EnrollResult :=
  match child.birth_year with
  | none => none
  | some b =>
    match findProgram db schedule.program_id with
    | none => some .enrollmentFailed
    | some program =>
      let childAge := todayYear - b
      if tooYoungCheck program.min_age childAge then some .tooYoung
      else if tooOldCheck program.max_age childAge then some .tooOld
      else none

/-- The `enroll_child` handler (app.py lines 431-487).  `todayYear` is
`date.today().year`; `commitOk` models whether `db.session.commit()`
succeeds (on failure the handler rolls back and returns a 500 error).
Checks run in source order: schedule 404, child lookup, duplicate active
enrollment, age bounds (only when `birth_date` is non-NULL), capacity;
only after all pass is the new `'active'` row inserted. -/
def enroll_child (db : Store) (parentId scheduleId childId : Nat)
    (todayYear : Int) (commitOk : Bool) : EnrollResult × Store :=
  match db.schedules.find? (fun s => s.id == scheduleId) with
  | none => (.scheduleNotFound, db)
  | some schedule =>
    match db.children.find? (fun c => c.id == childId && c.parent_id == parentId) with
    | none => (.childNotFound, db)
    | some child =>
      if hasActiveEnrollment db childId scheduleId then (.alreadyEnrolled, db)
      else
        match ageFailure db schedule child todayYear with
        | some r => (r, db)
        | none =>
          if activeCount db scheduleId ≥ schedule.max_students then (.classFull, db)
          else if commitOk then
            (.success,
              { db with
                  enrollments := db.enrollments ++
                    [{ id := db.nextEnrollmentId, child_id := childId,
                       schedule_id := scheduleId, status := "active" }],
                  nextEnrollmentId := db.nextEnrollmentId + 1 })
          else (.enrollmentFailed, db)

/-- SQL-side comparison of an integer id column against a raw form string
(`filter_by(id=program_id, ...)` with `program_id` a string: SQLite's
INTEGER column affinity coerces the numeric-looking text). -/
def sqlIdMatches (columnVal : Nat) (v : String) : Bool :=
  pyStrToInt v == some (columnVal : Int)

/-- Same coercion for an `Int`-valued column (`day_of_week`). -/
def sqlIntMatches (columnVal : Int) (v : String) : Bool :=
  pyStrToInt v == some columnVal

/-- Outcome of the `add_schedule` handler (app.py lines 938-1013). -/
inductive AddScheduleResult where
  | missingFields
  | invalidSelection
  | endNotAfterStart
  | conflictsWithExisting (existingId : Nat)
  | created
  | handlerError
deriving DecidableEq, Repr

/-- The POST branch of the `add_schedule` handler (app.py lines 944-1001).
Form fields arrive as strings; the handler converts `day_of_week` with
`int(...)` for the new row but assigns the raw string `teacher_id` to the
in-memory `Schedule` object before running the conflict loop, so the
object's `teacher_id` is a `str` while rows loaded from the database carry
an `int`.  `startTime`/`endTime` are the minutes-since-midnight of the two
`time.fromisoformat` results, and `maxStudents` the already-parsed optional
`max_students` field (`none` for an empty field, which falls back to the
program's `max_students`); a parse failure of either would land in the
`except` branch, a path no claim touches.  On commit the database coerces
the string `teacher_id` of the INSERT to the integer the column stores
(equal to the selected teacher's id, since the teacher lookup succeeded on
the same string).  The new row's `id` is the autoincrement value and its
`is_active` the column default `True`; neither is read by the conflict
loop. -/
def add_schedule (db : Store) (centerId : Nat)
    (programIdStr teacherIdStr dayStr : String) (startTime endTime : Nat)
    (maxStudents : Option Nat) : AddScheduleResult × Store :=
  if programIdStr == "" || teacherIdStr == "" || dayStr == "" then (.missingFields, db)
  else
    match db.programs.find? (fun p => sqlIdMatches p.id programIdStr && p.center_id == centerId),
          db.teachers.find? (fun t => sqlIdMatches t.id teacherIdStr && t.center_id == centerId) with
    | some program, some teacher =>
      if startTime ≥ endTime then (.endNotAfterStart, db)
      else
        let existing_schedules := db.schedules.filter (fun s =>
          sqlMatchesStr s.teacher_id teacherIdStr && sqlIntMatches s.day_of_week dayStr &&
            s.is_active)
        match pyStrToInt dayStr with
        | none => (.handlerError, db)
        | some day =>
          let new_schedule : Schedule :=
            { id := db.nextScheduleId
              program_id := program.id
              teacher_id := .str teacherIdStr
              day_of_week := day
              start_time := startTime
              end_time := endTime
              max_students := maxStudents.getD program.max_students
              is_active := true }
          match existing_schedules.find? (fun e => new_schedule.conflicts_with e) with
          | some e => (.conflictsWithExisting e.id, db)
          | none =>
            (.created,
              { db with
                  schedules := db.schedules ++
                    [{ new_schedule with teacher_id := .int (teacher.id : Int) }],
                  nextScheduleId := db.nextScheduleId + 1 })
    | _, _ => (.invalidSelection, db)

/-- `Child.query.filter_by(id=cid, parent_id=pid).first()` is non-None
(the ownership test of the `cancel_enrollment` join). -/
def childOwnedBy (db : Store) (cid pid : Nat) : Bool :=
  db.children.any (fun c => c.id == cid && c.parent_id == pid)

/-- Set the status column of the enrollment row with the given id. -/
def setEnrollmentStatus (db : Store) (eid : Nat) (status : String) : Store :=
  { db with
      enrollments := db.enrollments.map
        (fun e => if e.id == eid then { e with status := status } else e) }

/-- Outcome of the `cancel_enrollment` handler. -/
inductive CancelResult where
  | notFound
  | cancelDone
  | cancelFailed
deriving DecidableEq, Repr

/-- The `cancel_enrollment` handler (app.py lines 489-513): look up the
enrollment joined with `Child` on the requesting parent's ownership, set
its status to `'cancelled'` and commit (rollback on commit failure). -/
def cancel_enrollment (db : Store) (parentId eid : Nat) (commitOk : Bool) :
    CancelResult × Store :=
  match db.enrollments.find? (fun e => e.id == eid && childOwnedBy db e.child_id parentId) with
  | none => (.notFound, db)
  | some _ =>
    if commitOk then (.cancelDone, setEnrollmentStatus db eid "cancelled")
    else (.cancelFailed, db)

/-- `Enrollment -> Schedule -> Program` join of `approve_enrollment`:
the enrollment belongs to a schedule of a program of the given center. -/
def enrollmentAtCenter (db : Store) (e : Enrollment) (centerId : Nat) : Bool :=
  match db.schedules.find? (fun s => s.id == e.schedule_id) with
  | none => false
  | some s =>
    match findProgram db s.program_id with
    | none => false
    | some p => p.center_id == centerId

/-- Outcome of the `approve_enrollment` handler. -/
inductive ApproveResult where
  | notFound
  | approved
  | approveFailed
deriving DecidableEq, Repr

/-- The `approve_enrollment` handler (app.py lines 1302-1327): look up the
enrollment joined through Schedule and Program to the requesting center,
then set its status to `'active'` and commit — with no check of the
current status.  (The handler also assigns `approved_by`/`approved_at`,
plain instance attributes that are not mapped columns of `Enrollment` and
are therefore never persisted.) -/
def approve_enrollment (db : Store) (centerId eid : Nat) (commitOk : Bool) :
    ApproveResult × Store :=
  match db.enrollments.find? (fun e => e.id == eid && enrollmentAtCenter db e centerId) with
  | none => (.notFound, db)
  | some _ =>
    if commitOk then (.approved, setEnrollmentStatus db eid "active")
    else (.approveFailed, db)

/-- The class attributes of `Child` in models.py (mapped columns plus the
`parent` relationship): what `hasattr(Child, k)` sees for a keyword `k`
passed to the SQLAlchemy declarative constructor. -/
def childClassAttributes : List String :=
  ["id", "parent_id", "name", "birth_date", "grade", "notes", "created_at", "parent"]

/-- The keyword arguments `add_child` passes to `Child(...)` (app.py lines
340-347); `photo_url` is always among them, `None` when no photo was
uploaded. -/
def addChildKwargs : List String :=
  ["parent_id", "name", "birth_date", "grade", "notes", "photo_url"]

/-- Outcome of the POST branch of the `add_child` handler. -/
inductive AddChildResult where
  | nameRequired
  | invalidBirthDate
  | childAdded (name : String)
  | addChildFailed
deriving DecidableEq, Repr

/-- Split a character list on the dash separator (the field separator of
the `%Y-%m-%d` date format). -/
def splitOnDash : List Char → List (List Char)
  | [] => [[]]
  | c :: rest =>
    let r := splitOnDash rest
    if c = Char.ofNat 45 then [] :: r
    else
      match r with
      | [] => [[c]]
      | h :: t => (c :: h) :: t

/-- The year of a birth-date string parsed by `datetime.strptime` with the
`%Y-%m-%d` format, `none` when parsing raises `ValueError` (approximated
as: three dash-separated decimal components with the month in 1..12 and
the day in 1..31). -/
def parseBirthYear (s : String) : Option Int :=
  match splitOnDash s.toList with
  | [y, m, d] =>
    match parseDecDigits y, parseDecDigits m, parseDecDigits d with
    | some yn, some mn, some dn =>
      if 1 ≤ mn ∧ mn ≤ 12 ∧ 1 ≤ dn ∧ dn ≤ 31 then some (yn : Int) else none
    | _, _, _ => none
  | _ => none

/-- The POST branch of the `add_child` handler (app.py lines 307-359).
An empty (or absent) name redisplays the form; a malformed birth date
redisplays the form; otherwise the handler constructs
`Child(parent_id=..., name=..., birth_date=..., grade=..., notes=...,
photo_url=photo_url)` inside `try`.  The SQLAlchemy declarative
constructor raises `TypeError` for any keyword that is not an attribute of
the class, the `except Exception` branch rolls back and flashes the
generic error — modelled by the keyword-argument validity test against
`childClassAttributes`. -/
def add_child (db : Store) (parentId : Nat) (name : String)
    (birthDateStr : Option String) (grade notes : Option String) :
    AddChildResult × Store :=
  if name == "" then (.nameRequired, db)
  else
    let birthParse : Option (Option Int) :=
      match birthDateStr with
      | none => some none
      | some s => if s == "" then some none else (parseBirthYear s).map some
    match birthParse with
    | none => (.invalidBirthDate, db)
    | some birthYear =>
      if addChildKwargs.all (fun k => childClassAttributes.contains k) then
        (.childAdded name,
          { db with
              children := db.children ++
                [{ id := db.nextChildId, parent_id := parentId, name := name,
                   birth_year := birthYear, grade := grade, notes := notes }],
              nextChildId := db.nextChildId + 1 })
      else (.addChildFailed, db)

/-- The class attributes of `Enrollment` in models.py (mapped columns plus
the `child` and `schedule` relationships): what attribute lookup on an
`Enrollment` instance can resolve. -/
def enrollmentClassAttributes : List String :=
  ["id", "child_id", "schedule_id", "enrollment_date", "status", "payment_method",
   "notes", "created_at", "updated_at", "child", "schedule"]

/-- Outcome of the `api_child_enrollments` handler: either a structured
JSON response or an exception escaping the handler (it has no
`try`/`except`). -/
inductive ApiChildEnrollmentsResult where
  | jsonChildNotFound
  | jsonEnrollments (count : Nat)
  | raisedAttributeError (attr : String)
deriving DecidableEq, Repr

/-- The `api_child_enrollments` handler (app.py lines 1345-1369): after the
child-ownership lookup it builds one dict per enrollment of the child
(`child.enrollments`, every status).  Each dict calls
`enrollment.get_schedule_info()`, a method `Enrollment` does not define, so
the first enrollment raises `AttributeError`, and the handler has no
`try`/`except` to recover it. -/
def api_child_enrollments (db : Store) (parentId childId : Nat) :
    ApiChildEnrollmentsResult :=
  match db.children.find? (fun c => c.id == childId && c.parent_id == parentId) with
  | none => .jsonChildNotFound
  | some _ =>
    let childEnrollments := db.enrollments.filter (fun e => e.child_id == childId)
    if childEnrollments.isEmpty then .jsonEnrollments 0
    else if enrollmentClassAttributes.contains "get_schedule_info" then
      .jsonEnrollments childEnrollments.length
    else .raisedAttributeError "get_schedule_info"

/-- The age-bound exclusion of `available_programs` (app.py lines 606-611):
`if child_age:` guards the whole block, so an unknown age — or a computed
age of exactly 0, which is falsy — skips both bound tests; otherwise the
same truthiness-guarded bound tests as `enroll_child` decide exclusion.
(The program row of an existing schedule is foreign-key guaranteed; a
missing one would raise, a path no reachable store exercises.) -/
def ageExcludesSchedule (db : Store) (childAge : Option Int) (s : Schedule) : Bool :=
  match childAge with
  | none => false
  | some a =>
    if a == 0 then false
    else
      match findProgram db s.program_id with
      | none => false
      | some p => tooYoungCheck p.min_age a || tooOldCheck p.max_age a

/-- The loop body of `available_programs` (app.py lines 594-638): of the
active schedules, those surviving the three `continue` filters — child not
actively enrolled, age filter not excluding, capacity not reached — keyed
by schedule id. -/
def offeredScheduleIds (db : Store) (childId : Nat) (childAge : Option Int) :
    List Nat :=
  ((db.schedules.filter (fun s => s.is_active)).filter (fun s =>
    !(hasActiveEnrollment db childId s.id) &&
    !(ageExcludesSchedule db childAge s) &&
    !(decide (activeCount db s.id ≥ s.max_students)))).map (fun s => s.id)

/-- The `available_programs` handler (app.py lines 576-640), abstracted to
the ids of the schedules it offers: `none` is the child-not-found 404,
otherwise the filtered schedule ids with
`child_age = date.today().year - child.birth_date.year` when the birth
date is known. -/
def available_programs (db : Store) (parentId childId : Nat) (todayYear : Int) :
    Option (List Nat) :=
  match db.children.find? (fun c => c.id == childId && c.parent_id == parentId) with
  | none => none
  | some child =>
    some (offeredScheduleIds db childId (child.birth_year.map (fun b => todayYear - b)))

/-- Run a sequence of `enroll_child` requests (one per child id, in order)
against the same schedule, threading the store; commits succeed. -/
def enrollMany (pid sid : Nat) (today : Int) :
    Store → List Nat → List EnrollResult × Store
  | db, [] => ([], db)
  | db, c :: rest =>
    let r := enroll_child db pid sid c today true
    let rs := enrollMany pid sid today r.2 rest
    (r.1 :: rs.1, rs.2)

/-- A seeded store: one center (id 1) with teacher 1, program 1 (no age
bounds, capacity 20), one active schedule (id 1) of teacher 1 on Monday
09:00-10:00 (minutes 540-600), and child 1 of parent 1 with unknown birth
date.  No enrollments yet. -/
def demoDb : Store :=
  { children := [{ id := 1, parent_id := 1, name := "Alice", birth_year := none,
                   grade := none, notes := none }]
    teachers := [{ id := 1, center_id := 1 }]
    programs := [{ id := 1, center_id := 1, min_age := none, max_age := none,
                   max_students := 20 }]
    schedules := [{ id := 1, program_id := 1, teacher_id := .int 1, day_of_week := 0,
                    start_time := 540, end_time := 600, max_students := 20,
                    is_active := true }]
    enrollments := []
    nextChildId := 2
    nextEnrollmentId := 1
    nextScheduleId := 2 }

/-- `demoDb` after parent 1 enrolls child 1 in schedule 1 (enrollment row
id 1, status active). -/
def dbAfterEnroll : Store := (enroll_child demoDb 1 1 1 2026 true).2

/-- ... after the parent then cancels enrollment 1 (status cancelled). -/
def dbAfterCancel : Store := (cancel_enrollment dbAfterEnroll 1 1 true).2

/-- ... after the parent re-enrolls child 1 in schedule 1 (enrollment row
id 2, status active, next to the cancelled row id 1). -/
def dbAfterReenroll : Store := (enroll_child dbAfterCancel 1 1 1 2026 true).2

/-- ... after the center then approves the old enrollment row id 1, which
`approve_enrollment` re-activates without any status check. -/
def dbAfterApprove : Store := (approve_enrollment dbAfterReenroll 1 1 true).2

/-- Like `demoDb` but program 1 has `max_age = 0` (a present, non-NULL
bound) and child 1 has the known birth year 2016. -/
def zeroMaxDb : Store :=
  { children := [{ id := 1, parent_id := 1, name := "Zhan", birth_year := some 2016,
                   grade := none, notes := none }]
    teachers := [{ id := 1, center_id := 1 }]
    programs := [{ id := 1, center_id := 1, min_age := none, max_age := some 0,
                   max_students := 20 }]
    schedules := [{ id := 1, program_id := 1, teacher_id := .int 1, day_of_week := 0,
                    start_time := 540, end_time := 600, max_students := 20,
                    is_active := true }]
    enrollments := []
    nextChildId := 2
    nextEnrollmentId := 1
    nextScheduleId := 2 }

/-- A store with three eligible children, a schedule of capacity 2 with no
active enrollment (only a stale cancelled row of some other child), used
to exercise the capacity scenario. -/
def capDb : Store :=
  { children :=
      [{ id := 1, parent_id := 1, name := "A", birth_year := none, grade := none,
         notes := none },
       { id := 2, parent_id := 1, name := "B", birth_year := none, grade := none,
         notes := none },
       { id := 3, parent_id := 1, name := "C", birth_year := none, grade := none,
         notes := none }]
    teachers := [{ id := 1, center_id := 1 }]
    programs := [{ id := 1, center_id := 1, min_age := none, max_age := none,
                   max_students := 2 }]
    schedules := [{ id := 1, program_id := 1, teacher_id := .int 1, day_of_week := 0,
                    start_time := 540, end_time := 600, max_students := 2,
                    is_active := true }]
    enrollments := [{ id := 7, child_id := 9, schedule_id := 1, status := "cancelled" }]
    nextChildId := 4
    nextEnrollmentId := 8
    nextScheduleId := 2 }

/-- A store whose program has the age bounds 5..12 and whose child was
born in 2024 (computed age 2 in 2026). -/
def boundsDb : Store :=
  { children := [{ id := 1, parent_id := 1, name := "D", birth_year := some 2024,
                   grade := none, notes := none }]
    teachers := [{ id := 1, center_id := 1 }]
    programs := [{ id := 1, center_id := 1, min_age := some 5, max_age := some 12,
                   max_students := 20 }]
    schedules := [{ id := 1, program_id := 1, teacher_id := .int 1, day_of_week := 0,
                    start_time := 540, end_time := 600, max_students := 20,
                    is_active := true }]
    enrollments := []
    nextChildId := 2
    nextEnrollmentId := 1
    nextScheduleId := 2 }

/-- A store whose child was born this year (computed age 0 in 2026) while
the program requires ages 3..6. -/
def ageZeroDb : Store :=
  { children := [{ id := 1, parent_id := 1, name := "E", birth_year := some 2026,
                   grade := none, notes := none }]
    teachers := [{ id := 1, center_id := 1 }]
    programs := [{ id := 1, center_id := 1, min_age := some 3, max_age := some 6,
                   max_students := 20 }]
    schedules := [{ id := 1, program_id := 1, teacher_id := .int 1, day_of_week := 0,
                    start_time := 540, end_time := 600, max_students := 20,
                    is_active := true }]
    enrollments := []
    nextChildId := 2
    nextEnrollmentId := 1
    nextScheduleId := 2 }

/-- C2: `conflicts_with(A, B)` is true exactly when A and B have the same
`teacher_id`, the same `day_of_week`, and their half-open `[start, end)`
intervals overlap under `not (endA <= startB or startA >= endB)`; in
particular two touching intervals (endA = startB) never conflict. -/
theorem conflicts_with_iff_overlap (A B : Schedule) :
    A.conflicts_with B = true ↔
      A.teacher_id = B.teacher_id ∧ A.day_of_week = B.day_of_week ∧
        ¬ (A.end_time ≤ B.start_time ∨ A.start_time ≥ B.end_time) := by
  unfold Schedule.conflicts_with
  by_cases hd : A.day_of_week = B.day_of_week <;>
    by_cases ht : A.teacher_id = B.teacher_id <;>
      simp [hd, ht]

/-- C1 (code bug): a center submits the add-schedule form for teacher 1 on
Monday 09:30-10:30 while teacher 1 already has the active Monday
09:00-10:00 schedule.  The handler commits the overlapping slot anyway:
`conflicts_with` compares the in-memory object's `teacher_id` — the raw
form string — against the integer `teacher_id` of the database row, and in
Python a str never equals an int, so the conflict loop rejects nothing.
The committed rows, once both carry the integer the column stores, do
conflict under the model's own `conflicts_with`. -/
theorem add_schedule_commits_overlapping_slot :
    (add_schedule demoDb 1 "1" "1" "0" 570 630 none).1 = AddScheduleResult.created ∧
    (add_schedule demoDb 1 "1" "1" "0" 570 630 none).2.schedules =
      [{ id := 1, program_id := 1, teacher_id := .int 1, day_of_week := 0,
         start_time := 540, end_time := 600, max_students := 20, is_active := true },
       { id := 2, program_id := 1, teacher_id := .int 1, day_of_week := 0,
         start_time := 570, end_time := 630, max_students := 20, is_active := true }] ∧
    Schedule.conflicts_with
      { id := 2, program_id := 1, teacher_id := .int 1, day_of_week := 0,
        start_time := 570, end_time := 630, max_students := 20, is_active := true }
      { id := 1, program_id := 1, teacher_id := .int 1, day_of_week := 0,
        start_time := 540, end_time := 600, max_students := 20, is_active := true } = true := by
  decide

/-- C7 (code bug): starting from a store with one child and one schedule,
the handler sequence enroll, cancel, re-enroll, approve-the-cancelled-row
ends with two `active` enrollment rows for the same (child, schedule)
pair: `approve_enrollment` re-activates any row it finds, with no check
that the row is pending, so the at-most-one-active invariant is not
preserved. -/
theorem approve_breaks_unique_active_invariant :
    (enroll_child demoDb 1 1 1 2026 true).1 = .success ∧
    (cancel_enrollment dbAfterEnroll 1 1 true).1 = .cancelDone ∧
    (enroll_child dbAfterCancel 1 1 1 2026 true).1 = .success ∧
    pairActiveCount dbAfterReenroll 1 1 = 1 ∧
    (approve_enrollment dbAfterReenroll 1 1 true).1 = .approved ∧
    pairActiveCount dbAfterApprove 1 1 = 2 := by
  decide

/-- C8 (code bug): a valid add-child submission (non-empty name,
well-formed birth date) never creates a row and never reaches the success
message: the handler passes the keyword `photo_url` to `Child(...)`, an
attribute the `Child` model does not have, so the declarative constructor
raises `TypeError` on every request and the `except` branch answers with
the generic failure message, the store unchanged. -/
theorem add_child_valid_input_still_fails :
    add_child demoDb 1 "Bob" (some "2015-03-02") none none = (.addChildFailed, demoDb) ∧
    parseBirthYear "2015-03-02" = some 2015 ∧
    "photo_url" ∈ addChildKwargs ∧ "photo_url" ∉ childClassAttributes := by
  decide

/-- C9 (code bug): for a child owned by the requesting parent that has at
least one enrollment, the child-enrollments endpoint raises
`AttributeError` instead of returning JSON: it calls
`enrollment.get_schedule_info()`, a method the `Enrollment` model does not
define, and the handler has no `try`/`except` to recover it. -/
theorem api_child_enrollments_raises_attribute_error :
    api_child_enrollments dbAfterEnroll 1 1 = .raisedAttributeError "get_schedule_info" ∧
    "get_schedule_info" ∉ enrollmentClassAttributes := by
  decide

/-- C5 counterexample: program 1 carries the present (non-NULL) bound
`max_age = 0`; child 1 has computed age 2026 - 2016 = 10, strictly above
that bound, yet the enrollment succeeds instead of being rejected as too
old — Python truthiness makes a zero bound behave as if absent. -/
theorem age_above_zero_max_age_not_rejected :
    zeroMaxDb.programs =
      [{ id := 1, center_id := 1, min_age := none, max_age := some 0,
         max_students := 20 }] ∧
    (2026 : Int) - 2016 > 0 ∧
    (enroll_child zeroMaxDb 1 1 1 2026 true).1 = .success ∧
    (enroll_child zeroMaxDb 1 1 1 2026 true).1 ≠ .tooOld := by
  decide

/-- Helper: the exact success behaviour of `enroll_child` when every check
passes — the new `active` row is appended and nothing else changes. -/
theorem enroll_child_success_shape (db : Store) (pid sid cid : Nat) (today : Int)
    (sched : Schedule) (ch : Child)
    (hs : db.schedules.find? (fun s => s.id == sid) = some sched)
    (hc : db.children.find? (fun c => c.id == cid && c.parent_id == pid) = some ch)
    (hdup : hasActiveEnrollment db cid sid = false)
    (hage : ageFailure db sched ch today = none)
    (hcap : activeCount db sid < sched.max_students) :
    enroll_child db pid sid cid today true =
      (.success,
        { db with
            enrollments := db.enrollments ++
              [{ id := db.nextEnrollmentId, child_id := cid, schedule_id := sid,
                 status := "active" }],
            nextEnrollmentId := db.nextEnrollmentId + 1 }) := by
  simp [enroll_child, hs, hc, hdup, hage, Nat.not_le.mpr hcap]

/-- Helper: the class-full behaviour of `enroll_child` when the duplicate
and age checks pass but the schedule is at (or beyond) capacity. -/
theorem enroll_child_full_shape (db : Store) (pid sid cid : Nat) (today : Int)
    (sched : Schedule) (ch : Child)
    (hs : db.schedules.find? (fun s => s.id == sid) = some sched)
    (hc : db.children.find? (fun c => c.id == cid && c.parent_id == pid) = some ch)
    (hdup : hasActiveEnrollment db cid sid = false)
    (hage : ageFailure db sched ch today = none)
    (hcap : sched.max_students ≤ activeCount db sid) :
    enroll_child db pid sid cid today true = (.classFull, db) := by
  simp [enroll_child, hs, hc, hdup, hage, hcap]

/-- Helper: inserting an `active` row for the schedule raises its active
count by exactly one. -/
theorem activeCount_insert (db : Store) (sid nid ncid : Nat) :
    activeCount
      { db with
          enrollments := db.enrollments ++
            [{ id := nid, child_id := ncid, schedule_id := sid, status := "active" }],
          nextEnrollmentId := db.nextEnrollmentId + 1 } sid
      = activeCount db sid + 1 := by
  simp [activeCount, List.filter_append]

/-- Helper: inserting an `active` row for one child does not affect the
duplicate test of a different child. -/
theorem hasActive_insert_other (db : Store) (sid nid ncid c2 : Nat) (h : c2 ≠ ncid) :
    hasActiveEnrollment
      { db with
          enrollments := db.enrollments ++
            [{ id := nid, child_id := ncid, schedule_id := sid, status := "active" }],
          nextEnrollmentId := db.nextEnrollmentId + 1 } c2 sid
      = hasActiveEnrollment db c2 sid := by
  simp [hasActiveEnrollment, List.any_append, Ne.symm h]

/-- Helper: the age block never reports success, only a rejection. -/
theorem ageFailure_ne_success (db : Store) (sched : Schedule) (ch : Child)
    (today : Int) : ageFailure db sched ch today ≠ some .success := by
  unfold ageFailure
  cases hb : ch.birth_year with
  | none => simp
  | some b =>
    cases hp : findProgram db sched.program_id with
    | none => simp
    | some prog =>
      dsimp only
      split
      · simp
      · split <;> simp

/-- C6: the eligibility checks of `enroll_child` never mutate the store —
any non-success outcome leaves the store exactly as it was (including a
failed commit, which rolls back), and a success outcome changes it only by
appending the single new `active` enrollment row. -/
theorem enroll_checks_do_not_mutate (db : Store) (pid sid cid : Nat)
    (today : Int) (commitOk : Bool) :
    ((enroll_child db pid sid cid today commitOk).1 ≠ .success →
      (enroll_child db pid sid cid today commitOk).2 = db) ∧
    ((enroll_child db pid sid cid today commitOk).1 = .success →
      (enroll_child db pid sid cid today commitOk).2 =
        { db with
            enrollments := db.enrollments ++
              [{ id := db.nextEnrollmentId, child_id := cid, schedule_id := sid,
                 status := "active" }],
            nextEnrollmentId := db.nextEnrollmentId + 1 }) := by
  unfold enroll_child
  constructor <;>
  · intro h
    revert h
    repeat' split
    all_goals intro h
    all_goals try subst h
    all_goals simp_all [ageFailure_ne_success]

/-- C6 witness: at a concrete full schedule the request is rejected and
the store is returned unchanged. -/
theorem enroll_checks_do_not_mutate_witness :
    (enroll_child zeroMaxDb 1 1 1 2026 false).2 = zeroMaxDb :=
  (enroll_checks_do_not_mutate zeroMaxDb 1 1 1 2026 false).1 (by decide)

/-- C3: with the schedule and child both found, (a) a child holding an
active enrollment on the schedule is rejected as a duplicate no matter the
schedule's capacity or the child's age, the store unchanged; (b) a child
whose rows on the schedule are all cancelled passes the duplicate check,
and when the age check and capacity also pass the re-enrollment
succeeds. -/
theorem duplicate_check_first_cancelled_can_reenroll (db : Store)
    (pid sid cid : Nat) (today : Int) (commitOk : Bool) (sched : Schedule) (ch : Child)
    (hs : db.schedules.find? (fun s => s.id == sid) = some sched)
    (hc : db.children.find? (fun c => c.id == cid && c.parent_id == pid) = some ch) :
    (hasActiveEnrollment db cid sid = true →
      enroll_child db pid sid cid today commitOk = (.alreadyEnrolled, db)) ∧
    ((∀ e ∈ db.enrollments, e.child_id = cid → e.schedule_id = sid →
        e.status = "cancelled") →
      ageFailure db sched ch today = none →
      activeCount db sid < sched.max_students →
      (enroll_child db pid sid cid today true).1 = .success) := by
  constructor
  · intro h
    simp [enroll_child, hs, hc, h]
  · intro hcanc hage hcap
    have hdup : hasActiveEnrollment db cid sid = false := by
      unfold hasActiveEnrollment
      rw [List.any_eq_false]
      intro e he
      simp only [Bool.and_eq_true, beq_iff_eq]
      rintro ⟨⟨h1, h2⟩, h3⟩
      rw [hcanc e he h1 h2] at h3
      exact absurd h3 (by decide)
    simp [enroll_child, hs, hc, hdup, hage, Nat.not_le.mpr hcap]

/-- C3 witness: at the concrete store with the stale cancelled row, both
parts of the duplicate-check theorem hold for child 1 on schedule 1. -/
theorem duplicate_check_first_witness :
    (hasActiveEnrollment capDb 1 1 = true →
      enroll_child capDb 1 1 1 2026 true = (.alreadyEnrolled, capDb)) ∧
    ((∀ e ∈ capDb.enrollments, e.child_id = 1 → e.schedule_id = 1 →
        e.status = "cancelled") →
      ageFailure capDb
        { id := 1, program_id := 1, teacher_id := .int 1, day_of_week := 0,
          start_time := 540, end_time := 600, max_students := 2, is_active := true }
        { id := 1, parent_id := 1, name := "A", birth_year := none, grade := none,
          notes := none } 2026 = none →
      activeCount capDb 1 <
        Schedule.max_students
          { id := 1, program_id := 1, teacher_id := .int 1, day_of_week := 0,
            start_time := 540, end_time := 600, max_students := 2,
            is_active := true } →
      (enroll_child capDb 1 1 1 2026 true).1 = .success) :=
  duplicate_check_first_cancelled_can_reenroll capDb 1 1 1 2026 true
    { id := 1, program_id := 1, teacher_id := .int 1, day_of_week := 0,
      start_time := 540, end_time := 600, max_students := 2, is_active := true }
    { id := 1, parent_id := 1, name := "A", birth_year := none, grade := none,
      notes := none }
    (by decide) (by decide)

/-- Helper: running one `enroll_child` request per listed child against the
same schedule — the schedule found, every listed child found and passing
the age check, the children pairwise distinct and none actively enrolled —
produces, when the request count exceeds the remaining capacity by exactly
one, one success per free seat followed by a class-full rejection. -/
theorem enrollMany_consumes (pid sid : Nat) (today : Int) (sched : Schedule)
    (cids : List Nat) :
    ∀ db : Store,
      db.schedules.find? (fun s => s.id == sid) = some sched →
      (∀ c ∈ cids, ∃ ch,
        db.children.find? (fun x => x.id == c && x.parent_id == pid) = some ch ∧
          ageFailure db sched ch today = none) →
      cids.Nodup →
      (∀ c ∈ cids, hasActiveEnrollment db c sid = false) →
      activeCount db sid ≤ sched.max_students →
      cids.length = sched.max_students + 1 - activeCount db sid →
      (enrollMany pid sid today db cids).1 =
        List.replicate (sched.max_students - activeCount db sid)
            EnrollResult.success ++ [EnrollResult.classFull] := by
  induction cids with
  | nil =>
    intro db hs hch hnd hna hle hlen
    exfalso
    simp only [List.length_nil] at hlen
    omega
  | cons c rest ih =>
    intro db hs hch hnd hna hle hlen
    obtain ⟨ch, hc, hage⟩ := hch c (List.mem_cons_self c rest)
    simp only [List.length_cons] at hlen
    by_cases hcap : activeCount db sid < sched.max_students
    · have hstep := enroll_child_success_shape db pid sid c today sched ch hs hc
        (hna c (List.mem_cons_self c rest)) hage hcap
      simp only [enrollMany, hstep]
      have hcount2 := activeCount_insert db sid db.nextEnrollmentId c
      have hcne : c ∉ rest := (List.nodup_cons.mp hnd).1
      rw [ih { db with
            enrollments := db.enrollments ++
              [{ id := db.nextEnrollmentId, child_id := c, schedule_id := sid,
                 status := "active" }],
            nextEnrollmentId := db.nextEnrollmentId + 1 }
        hs
        (fun c2 hc2 => hch c2 (List.mem_cons_of_mem c hc2))
        (List.nodup_cons.mp hnd).2
        (fun c2 hc2 => by
          rw [hasActive_insert_other db sid db.nextEnrollmentId c c2
            (fun h => hcne (h ▸ hc2))]
          exact hna c2 (List.mem_cons_of_mem c hc2))
        (by rw [hcount2]; omega)
        (by rw [hcount2]; omega), hcount2]
      have hMA : sched.max_students - activeCount db sid =
          (sched.max_students - (activeCount db sid + 1)) + 1 := by omega
      rw [hMA, List.replicate_succ, List.cons_append]
    · have hgeq : sched.max_students ≤ activeCount db sid := Nat.not_lt.mp hcap
      have hstep := enroll_child_full_shape db pid sid c today sched ch hs hc
        (hna c (List.mem_cons_self c rest)) hage hgeq
      have heq : activeCount db sid = sched.max_students := le_antisymm hle hgeq
      have hrest : rest = [] := List.length_eq_zero.mp (by omega)
      subst hrest
      simp only [enrollMany, hstep]
      rw [heq]
      simp

/-- C4: the capacity check counts only rows with status `active`: starting
from a schedule carrying no active enrollment (stale cancelled or other
non-active rows allowed), a run of `max_students + 1` enrollment requests
for pairwise-distinct eligible children yields exactly `max_students`
successes followed by the class-full rejection for the last request. -/
theorem capacity_fill_scenario (db : Store) (pid sid : Nat) (today : Int)
    (cids : List Nat) (sched : Schedule)
    (hs : db.schedules.find? (fun s => s.id == sid) = some sched)
    (hch : ∀ c ∈ cids, ∃ ch,
      db.children.find? (fun x => x.id == c && x.parent_id == pid) = some ch ∧
        ageFailure db sched ch today = none)
    (hnd : cids.Nodup)
    (hnoact : ∀ e ∈ db.enrollments, e.schedule_id = sid → e.status ≠ "active")
    (hlen : cids.length = sched.max_students + 1) :
    (enrollMany pid sid today db cids).1 =
      List.replicate sched.max_students EnrollResult.success ++
        [EnrollResult.classFull] := by
  have hA : activeCount db sid = 0 := by
    unfold activeCount
    rw [List.length_eq_zero, List.filter_eq_nil_iff]
    intro e he
    simp only [Bool.and_eq_true, beq_iff_eq]
    rintro ⟨h1, h2⟩
    exact hnoact e he h1 h2
  have hna : ∀ c ∈ cids, hasActiveEnrollment db c sid = false := by
    intro c hc
    unfold hasActiveEnrollment
    rw [List.any_eq_false]
    intro e he
    simp only [Bool.and_eq_true, beq_iff_eq]
    rintro ⟨⟨h1, h2⟩, h3⟩
    exact hnoact e he h2 h3
  have hmain := enrollMany_consumes pid sid today sched cids db hs hch hnd hna
    (by rw [hA]; exact Nat.zero_le _) (by omega)
  rw [hA] at hmain
  simpa using hmain

/-- C4 witness: on the concrete capacity-2 schedule (with a stale
cancelled row) the three requests for children 1, 2, 3 answer success,
success, class full. -/
theorem capacity_fill_scenario_witness :
    (enrollMany 1 1 2026 capDb [1, 2, 3]).1 =
      List.replicate 2 EnrollResult.success ++ [EnrollResult.classFull] :=
  capacity_fill_scenario capDb 1 1 2026 [1, 2, 3]
    { id := 1, program_id := 1, teacher_id := .int 1, day_of_week := 0,
      start_time := 540, end_time := 600, max_students := 2, is_active := true }
    (by decide)
    (by
      intro c hc
      fin_cases hc
      · exact ⟨{ id := 1, parent_id := 1, name := "A", birth_year := none,
                 grade := none, notes := none }, by decide, by decide⟩
      · exact ⟨{ id := 2, parent_id := 1, name := "B", birth_year := none,
                 grade := none, notes := none }, by decide, by decide⟩
      · exact ⟨{ id := 3, parent_id := 1, name := "C", birth_year := none,
                 grade := none, notes := none }, by decide, by decide⟩)
    (by decide)
    (by decide)
    (by decide)

/-- Helper: the too-young test fires exactly for a present, non-zero
`min_age` strictly above the computed age. -/
theorem tooYoungCheck_iff (minAge : Option Int) (age : Int) :
    tooYoungCheck minAge age = true ↔
      ∃ m, minAge = some m ∧ m ≠ 0 ∧ age < m := by
  cases hm : minAge with
  | none => simp [tooYoungCheck]
  | some m => simp [tooYoungCheck]

/-- Helper: the too-old test fires exactly for a present, non-zero
`max_age` strictly below the computed age. -/
theorem tooOldCheck_iff (maxAge : Option Int) (age : Int) :
    tooOldCheck maxAge age = true ↔
      ∃ m, maxAge = some m ∧ m ≠ 0 ∧ m < age := by
  cases hm : maxAge with
  | none => simp [tooOldCheck]
  | some m => simp [tooOldCheck]

/-- C5 (amended): with the schedule, the child (known birth year `b`) and
the program all found and the duplicate check passing, the handler
computes the age as `today.year - birth_year` (no month/day adjustment)
and rejects as too young exactly when `min_age` is present, non-zero and
strictly above that age, and as too old exactly when the too-young
rejection does not fire and `max_age` is present, non-zero and strictly
below that age; an absent — or, by Python truthiness, zero — bound imposes
no constraint, so a child aged exactly `min_age` passes the age check and
one aged `min_age - 1` (for non-zero `min_age`) is rejected as too
young. -/
theorem enroll_age_bounds (db : Store) (pid sid cid : Nat) (today b : Int)
    (commitOk : Bool) (sched : Schedule) (ch : Child) (prog : Program)
    (hs : db.schedules.find? (fun s => s.id == sid) = some sched)
    (hc : db.children.find? (fun c => c.id == cid && c.parent_id == pid) = some ch)
    (hb : ch.birth_year = some b)
    (hp : findProgram db sched.program_id = some prog)
    (hdup : hasActiveEnrollment db cid sid = false) :
    ((enroll_child db pid sid cid today commitOk).1 = .tooYoung ↔
      ∃ m, prog.min_age = some m ∧ m ≠ 0 ∧ today - b < m) ∧
    ((enroll_child db pid sid cid today commitOk).1 = .tooOld ↔
      (¬ ∃ m, prog.min_age = some m ∧ m ≠ 0 ∧ today - b < m) ∧
      ∃ m, prog.max_age = some m ∧ m ≠ 0 ∧ m < today - b) := by
  have hAF : ageFailure db sched ch today =
      (if tooYoungCheck prog.min_age (today - b) then some .tooYoung
       else if tooOldCheck prog.max_age (today - b) then some .tooOld
       else none) := by
    simp only [ageFailure, hb, hp]
  by_cases hY : tooYoungCheck prog.min_age (today - b) = true
  · have hr : (enroll_child db pid sid cid today commitOk).1 = .tooYoung := by
      simp [enroll_child, hs, hc, hdup, hAF, hY]
    constructor
    · rw [hr]
      exact iff_of_true rfl ((tooYoungCheck_iff prog.min_age (today - b)).mp hY)
    · rw [hr]
      refine iff_of_false (by simp) ?_
      rintro ⟨hn, _⟩
      exact hn ((tooYoungCheck_iff prog.min_age (today - b)).mp hY)
  · simp only [Bool.not_eq_true] at hY
    have hnoY : ¬ ∃ m, prog.min_age = some m ∧ m ≠ 0 ∧ today - b < m := by
      intro hex
      rw [(tooYoungCheck_iff prog.min_age (today - b)).mpr hex] at hY
      exact Bool.true_eq_false.mp hY
    by_cases hO : tooOldCheck prog.max_age (today - b) = true
    · have hr : (enroll_child db pid sid cid today commitOk).1 = .tooOld := by
        simp [enroll_child, hs, hc, hdup, hAF, hY, hO]
      constructor
      · rw [hr]
        refine iff_of_false (by simp) ?_
        exact fun hex => hnoY hex
      · rw [hr]
        exact iff_of_true rfl
          ⟨hnoY, (tooOldCheck_iff prog.max_age (today - b)).mp hO⟩
    · simp only [Bool.not_eq_true] at hO
      have hnoO : ¬ ∃ m, prog.max_age = some m ∧ m ≠ 0 ∧ m < today - b := by
        intro hex
        rw [(tooOldCheck_iff prog.max_age (today - b)).mpr hex] at hO
        exact Bool.true_eq_false.mp hO
      have hne : (enroll_child db pid sid cid today commitOk).1 ≠ .tooYoung ∧
          (enroll_child db pid sid cid today commitOk).1 ≠ .tooOld := by
        simp only [enroll_child, hs, hc, hdup, hAF, hY, hO]
        constructor <;>
        · repeat' split
          all_goals simp_all
      exact ⟨iff_of_false hne.1 hnoY, iff_of_false hne.2 (fun h => hnoO h.2)⟩

/-- C5 witness: the amended bound characterisation at the concrete store
whose program requires ages 5..12 of a child with computed age 2. -/
theorem enroll_age_bounds_witness :
    ((enroll_child boundsDb 1 1 1 2026 true).1 = .tooYoung ↔
      ∃ m, (some 5 : Option Int) = some m ∧ m ≠ 0 ∧ (2026 - 2024 : Int) < m) ∧
    ((enroll_child boundsDb 1 1 1 2026 true).1 = .tooOld ↔
      (¬ ∃ m, (some 5 : Option Int) = some m ∧ m ≠ 0 ∧ (2026 - 2024 : Int) < m) ∧
      ∃ m, (some 12 : Option Int) = some m ∧ m ≠ 0 ∧ m < (2026 - 2024 : Int)) :=
  enroll_age_bounds boundsDb 1 1 1 2026 2024 true
    { id := 1, program_id := 1, teacher_id := .int 1, day_of_week := 0,
      start_time := 540, end_time := 600, max_students := 20, is_active := true }
    { id := 1, parent_id := 1, name := "D", birth_year := some 2024, grade := none,
      notes := none }
    { id := 1, center_id := 1, min_age := some 5, max_age := some 12,
      max_students := 20 }
    (by decide) (by decide) (by decide) (by decide) (by decide)

/-- C10: a child with a known birth date whose computed age is exactly 0
is exempted from all age-bound filtering in the available-programs
endpoint (the handler tests the truthiness of the age, and 0 is falsy), so
an active, non-full schedule the child is not enrolled in is offered even
though its program has a positive minimum age — while the enrollment
handler rejects the very same child as too young. -/
theorem available_programs_age_zero_exempt (db : Store) (pid cid : Nat)
    (today b m : Int) (ch : Child) (s : Schedule) (prog : Program)
    (hc : db.children.find? (fun c => c.id == cid && c.parent_id == pid) = some ch)
    (hb : ch.birth_year = some b)
    (hage : today - b = 0)
    (hmem : s ∈ db.schedules) (hact : s.is_active = true)
    (hs : db.schedules.find? (fun x => x.id == s.id) = some s)
    (hp : findProgram db s.program_id = some prog)
    (hm : prog.min_age = some m) (hm0 : m ≠ 0) (hmpos : 0 < m)
    (hdup : hasActiveEnrollment db cid s.id = false)
    (hcap : activeCount db s.id < s.max_students) :
    available_programs db pid cid today = some (offeredScheduleIds db cid (some 0)) ∧
    s.id ∈ offeredScheduleIds db cid (some 0) ∧
    (enroll_child db pid s.id cid today true).1 = .tooYoung := by
  refine ⟨?_, ?_, ?_⟩
  · simp [available_programs, hc, hb, hage]
  · unfold offeredScheduleIds
    rw [List.mem_map]
    refine ⟨s, ?_, rfl⟩
    rw [List.mem_filter]
    refine ⟨List.mem_filter.mpr ⟨hmem, hact⟩, ?_⟩
    simp [hdup, ageExcludesSchedule, Nat.not_le.mpr hcap]
  · have hAF : ageFailure db s ch today = some .tooYoung := by
      simp [ageFailure, hb, hp, hage, tooYoungCheck, hm, hm0, hmpos]
    simp [enroll_child, hs, hc, hdup, hAF]

/-- C10 witness: at the concrete store whose child was born this year and
whose program requires ages 3..6, schedule 1 is offered to the child while
the enrollment handler rejects the child as too young. -/
theorem available_programs_age_zero_exempt_witness :
    available_programs ageZeroDb 1 1 2026 =
      some (offeredScheduleIds ageZeroDb 1 (some 0)) ∧
    1 ∈ offeredScheduleIds ageZeroDb 1 (some 0) ∧
    (enroll_child ageZeroDb 1 1 1 2026 true).1 = .tooYoung :=
  available_programs_age_zero_exempt ageZeroDb 1 1 2026 2026 3
    { id := 1, parent_id := 1, name := "E", birth_year := some 2026, grade := none,
      notes := none }
    { id := 1, program_id := 1, teacher_id := .int 1, day_of_week := 0,
      start_time := 540, end_time := 600, max_students := 20, is_active := true }
    { id := 1, center_id := 1, min_age := some 3, max_age := some 6,
      max_students := 20 }
    (by decide) (by decide) (by decide) (by decide) (by decide) (by decide)
    (by decide) (by decide) (by decide) (by decide) (by decide) (by decide)

end KidFit
